import Mathlib

/-!
# Verification of the sorcery_game player movement / collision / animation core

Shallow embedding of the repository's core logic:
* `src/settings.py`   — layout constants (screen, game area, speeds, thresholds),
* `src/player-copy.py` — the `Player` class: input handling, Euler integration,
  platform collision passes, screen-boundary clamping and tick-based animation,
* `src/spritesheet.py` — the size behaviour of `Spritesheet.get_image`.

Python floats are modelled as rationals (`ℚ`), pygame rects as integer
rectangles.  `round` is Python's banker's rounding (`pyRound`) and `int(...)`
is truncation toward zero (`pyInt`).  The player's `self.rect` may be `None`
in Python, hence `Option Rect` in the state; every guard the source performs
is transcribed.
-/

namespace Sorcery

/-! ## Python numeric primitives -/

/-- Python's `round` on a float: round half to even (banker's rounding). -/
def pyRound (q : ℚ) : ℤ :=
  let f := Rat.floor q
  let r := q - (f : ℚ)
  if r < 1/2 then f
  else if r > 1/2 then f + 1
  else if f % 2 = 0 then f else f + 1

/-- Python's `int(...)` conversion on a float: truncation toward zero. -/
def pyInt (q : ℚ) : ℤ :=
  if 0 ≤ q then Rat.floor q else -Rat.floor (-q)

theorem ratFloor_eq_floor (q : ℚ) : Rat.floor q = ⌊q⌋ :=
  (Rat.floor_def' q).trans Rat.floor_def.symm

/-! ## Constants from `src/settings.py` -/

def GLOBAL_SCALE_FACTOR : ℤ := 3
def BASE_GAME_AREA_WIDTH : ℤ := 320
def BASE_GAME_AREA_HEIGHT : ℤ := 144
def BASE_INFO_PANEL_HEIGHT : ℤ := 56
def BASE_SCREEN_WIDTH : ℤ := BASE_GAME_AREA_WIDTH
def BASE_SCREEN_HEIGHT : ℤ := BASE_GAME_AREA_HEIGHT + BASE_INFO_PANEL_HEIGHT
def SCREEN_WIDTH : ℤ := BASE_SCREEN_WIDTH * GLOBAL_SCALE_FACTOR
def SCREEN_HEIGHT : ℤ := BASE_SCREEN_HEIGHT * GLOBAL_SCALE_FACTOR
def GAME_AREA_WIDTH : ℤ := BASE_GAME_AREA_WIDTH * GLOBAL_SCALE_FACTOR
def GAME_AREA_HEIGHT : ℤ := BASE_GAME_AREA_HEIGHT * GLOBAL_SCALE_FACTOR
def PLAYER_SPEED_PPS : ℚ := 500
def PLAYER_GRAVITY_PPS : ℚ := 300
def PLAYER_TICKS_PER_FRAME_DEFAULT : ℕ := 7
def PLAYER_VELOCITY_THRESHOLD : ℚ := 1/10 * 3

/-- `PLAYER_SCALE_FACTOR`: referenced by `player-copy.py` via
`from settings import PLAYER_SCALE_FACTOR`; in `settings.py` the definition
line `PLAYER_SCALE_FACTOR = 3` is commented out, so we keep its intended
value 3 (the value is irrelevant to every claim below). -/
def PLAYER_SCALE_FACTOR : ℤ := 3

/-! ## pygame rectangles -/

/-- A pygame `Rect`: integer topleft corner and integer size. -/
structure Rect where
  x : ℤ
  y : ℤ
  w : ℤ
  h : ℤ
deriving DecidableEq, Repr

/-- `pygame.Rect.colliderect`: strict overlap test
(`A.x < B.x + B.w and A.y < B.y + B.h and A.x + A.w > B.x and A.y + A.h > B.y`). -/
def collideB (a b : Rect) : Bool :=
  decide (a.x < b.x + b.w) && decide (a.y < b.y + b.h) &&
  decide (a.x + a.w > b.x) && decide (a.y + a.h > b.y)

/-- `rect.center` in pygame: `(x + w // 2, y + h // 2)`. -/
def Rect.center (r : Rect) : ℤ × ℤ := (r.x + r.w / 2, r.y + r.h / 2)

/-- An image is modelled by its pixel size `(w, h)`. -/
abbrev Frame := ℤ × ℤ

/-- `image.get_rect(topleft=p)`. -/
def rectAtTopleft (f : Frame) (x y : ℤ) : Rect := ⟨x, y, f.1, f.2⟩

/-- `image.get_rect(center=c)`: a rect of the image's size placed at center `c`. -/
def rectAtCenter (f : Frame) (c : ℤ × ℤ) : Rect :=
  ⟨c.1 - f.1 / 2, c.2 - f.2 / 2, f.1, f.2⟩

/-! ## Player state (`player-copy.py`, class `Player`)

The mutable attributes of a `Player` instance that the movement, collision
and animation code reads or writes.  Images are abstracted to their sizes.
-/

/-- Pressed-key snapshot (`pygame.key.get_pressed()` restricted to the keys
`Player.handle_input_and_movement` reads). -/
structure Keys where
  left : Bool
  right : Bool
  up : Bool
  down : Bool
deriving DecidableEq, Repr

structure PState where
  px : ℚ
  py : ℚ
  vx : ℚ
  vy : ℚ
  isOnGround : Bool
  rect : Option Rect
  image : Option Frame
  currentAnimationName : Option String
  currentFrames : List Frame
  currentFrameIndex : ℕ
  animationTicksPerFrame : ℕ
  ticksSinceLastFrameChange : ℕ
  animations : List (String × List Frame)
  speedPps : ℚ
  gravityPps : ℚ
  scaleFactor : ℤ
deriving Repr

/-- Python truthiness of an optional string (`None` and `""` are falsy). -/
def optStrTruthy : Option String → Bool
  | none => false
  | some s => !s.isEmpty

/-- Python truthiness of `dict.get(...)` over the animations table:
the key exists and maps to a non-empty frame list. -/
def framesTruthy : Option (List Frame) → Bool
  | some (_ :: _) => true
  | _ => false

/-! ## `Player.set_animation` (`player-copy.py` lines 53–100) -/

/-- The common tail of `set_animation` once a frame list has been chosen
(lines 84–100): reset the cursor, guard against an empty list (magenta
placeholder, lines 88–94), otherwise install frame 0 and re-center the rect. -/
def setAnimationCommit (nm : String) (fr : List Frame) (s : PState) : PState :=
  let s1 := { s with currentAnimationName := some nm, currentFrames := fr,
                     currentFrameIndex := 0, ticksSinceLastFrameChange := 0 }
  match fr with
  | [] =>
    let img : Frame := (32 * s.scaleFactor, 32 * s.scaleFactor)
    { s1 with image := some img,
              rect := some (match s.rect with
                            | none => rectAtTopleft img (pyInt s.px) (pyInt s.py)
                            | some r => { r with w := img.1, h := img.2 }) }
  | f :: _ =>
    match s.rect with
    | some r => { s1 with image := some f, rect := some (rectAtCenter f r.center) }
    | none   => { s1 with image := some f,
                          rect := some (rectAtTopleft f (pyInt s.px) (pyInt s.py)) }

def setAnimation (nm : String) (s : PState) : PState :=
  -- line 54: already playing this animation
  if s.currentAnimationName = some nm ∧ s.currentFrames ≠ [] then s
  -- line 55: no animations loaded at all
  else if s.animations = [] then s
  else
    match List.lookup nm s.animations with
    | some (f :: fs) => setAnimationCommit nm (f :: fs) s   -- lines 80–100
    | _ =>
      -- lines 58–79: requested animation missing or empty
      if s.currentFrames ≠ [] ∧ optStrTruthy s.currentAnimationName ∧
         framesTruthy (match s.currentAnimationName with
                       | some cn => List.lookup cn s.animations
                       | none => none) then s          -- keep current valid animation
      else
        match s.animations.find? (fun kv => !kv.2.isEmpty) with
        | some kv => setAnimationCommit kv.1 kv.2 s    -- fallback to first valid
        | none =>
          -- lines 70–79: yellow placeholder, intended name recorded, empty frames
          let img : Frame := (32 * s.scaleFactor, 32 * s.scaleFactor)
          { s with image := some img,
                   rect := some (match s.rect with
                                 | none => rectAtTopleft img (pyInt s.px) (pyInt s.py)
                                 | some r => { r with w := img.1, h := img.2 }),
                   currentFrames := [], currentAnimationName := some nm,
                   currentFrameIndex := 0, ticksSinceLastFrameChange := 0 }

/-! ## `Player.update_animation` (`player-copy.py` lines 201–239) -/

/-- The animation the state machine selects from the resolved velocity and
grounded flag (lines 204–218). -/
def animTargetName (vx vy : ℚ) (ground : Bool) : String :=
  let thr := PLAYER_VELOCITY_THRESHOLD
  let vxDir : ℤ := if vx > thr then 1 else if vx < -thr then -1 else 0
  let vyDir : ℤ := if vy > thr ∧ ground = false then 1 else if vy < -thr then -1 else 0
  if vxDir > 0 then "walk_right"
  else if vxDir < 0 then "walk_left"
  else if vyDir ≠ 0 then "idle_front"
  else "idle_front"

/-- Lines 223–239 of `update_animation`: the empty-frames placeholder early
return and, otherwise, the tick-based frame advance. -/
def advanceFrame (s1 : PState) : PState :=
  if s1.currentFrames = [] then
    -- lines 223–227: ensure an image exists, then return
    match s1.image with
    | none =>
      let img : Frame := (32 * s1.scaleFactor, 32 * s1.scaleFactor)
      { s1 with image := some img,
                rect := match s1.rect with
                        | none => some (rectAtTopleft img (pyInt s1.px) (pyInt s1.py))
                        | some r => some r }
    | some _ => s1
  else
    -- lines 229–239: tick-based frame advance
    let t := s1.ticksSinceLastFrameChange + 1
    if t ≥ s1.animationTicksPerFrame then
      let idx := (s1.currentFrameIndex + 1) % s1.currentFrames.length
      let s2 := { s1 with ticksSinceLastFrameChange := 0, currentFrameIndex := idx }
      if hlt : idx < s1.currentFrames.length then
        let img := s1.currentFrames.get ⟨idx, hlt⟩
        match s2.rect with
        | some r => { s2 with image := some img, rect := some (rectAtCenter img r.center) }
        | none   => { s2 with image := some img,
                              rect := some (rectAtTopleft img (pyInt s2.px) (pyInt s2.py)) }
      else s2
    else { s1 with ticksSinceLastFrameChange := t }

def updateAnimation (s : PState) : PState :=
  let target := animTargetName s.vx s.vy s.isOnGround
  advanceFrame (if s.currentAnimationName ≠ some target ∨ s.currentFrames = []
                then setAnimation target s else s)

/-! ## `Player.handle_input_and_movement` (`player-copy.py` lines 102–129) -/

def handleInputAndMovement (k : Keys) (dt : ℚ) (s : PState) : PState :=
  let tvx : ℚ := if k.left && !k.right then -s.speedPps
                 else if k.right && !k.left then s.speedPps else 0
  let cvy : ℚ := if k.up then -s.speedPps
                 else if k.down then s.speedPps else s.gravityPps
  let vy : ℚ := if s.isOnGround && !k.up && !k.down then 0 else cvy
  { s with vx := tvx, vy := vy, px := s.px + tvx * dt, py := s.py + vy * dt }

/-! ## `Player.handle_platform_collisions` (`player-copy.py` lines 131–168) -/

/-- Lines 134–136: create a rect if it is somehow `None`. -/
def collisionGuard (s : PState) : PState :=
  match s.rect with
  | some _ => s
  | none => { s with rect := some (match s.image with
      | some im => rectAtTopleft im 0 0
      | none => ⟨0, 0, 32 * s.scaleFactor, 32 * s.scaleFactor⟩) }

/-- Accumulator of the horizontal collision loop (lines 142–148):
the mutated `self.rect`, `self.position.x` and `self.velocity.x`. -/
structure HFold where
  rect : Rect
  px : ℚ
  vx : ℚ
deriving Repr

/-- One iteration of `for platform_hit in hit_list_x` (lines 142–148). -/
def hStep (st : HFold) (p : Rect) : HFold :=
  let r := if st.vx > 0 then { st.rect with x := p.x - st.rect.w }
           else if st.vx < 0 then { st.rect with x := p.x + p.w }
           else st.rect
  { rect := r, px := (r.x : ℚ), vx := 0 }

/-- Lines 138–148: snap `rect.x` to `round(position.x)`, collect overlapping
platforms, and resolve them in sequence. -/
def horizontalPass (ps : List Rect) (s : PState) : PState :=
  match s.rect with
  | none => s
  | some r0 =>
    let r1 := { r0 with x := pyRound s.px }
    let hits := ps.filter (fun p => collideB r1 p)
    let res := hits.foldl hStep ⟨r1, s.px, s.vx⟩
    { s with rect := some res.rect, px := res.px, vx := res.vx }

/-- Accumulator of the vertical collision loop (lines 161–168). -/
structure VFold where
  rect : Rect
  py : ℚ
  vy : ℚ
  ground : Bool
deriving Repr

/-- One iteration of `for platform_hit in hit_list_y` (lines 161–168). -/
def vStep (st : VFold) (p : Rect) : VFold :=
  if st.vy > 0 then
    let r := { st.rect with y := p.y - st.rect.h }
    { rect := r, py := (r.y : ℚ), vy := 0, ground := true }
  else if st.vy < 0 then
    let r := { st.rect with y := p.y + p.h }
    { rect := r, py := (r.y : ℚ), vy := 0, ground := st.ground }
  else
    { rect := st.rect, py := (st.rect.y : ℚ), vy := 0, ground := st.ground }

/-- Lines 150–168: snap `rect.y` to `round(position.y)`, reset
`is_on_ground`, and resolve overlapping platforms in sequence. -/
def verticalPass (ps : List Rect) (s : PState) : PState :=
  match s.rect with
  | none => s
  | some r0 =>
    let r1 := { r0 with y := pyRound s.py }
    let hits := ps.filter (fun p => collideB r1 p)
    let res := hits.foldl vStep ⟨r1, s.py, s.vy, false⟩
    { s with rect := some res.rect, py := res.py, vy := res.vy,
             isOnGround := res.ground }

def handlePlatformCollisions (ps : List Rect) (s : PState) : PState :=
  verticalPass ps (horizontalPass ps (collisionGuard s))

/-! ## `Player.apply_screen_boundaries` (`player-copy.py` lines 170–199) -/

def applyScreenBoundaries (s : PState) : PState :=
  match s.rect with
  | none => s
  | some r =>
    let s1 :=
      if s.px < 0 then
        { s with px := 0, vx := if s.vx < 0 then 0 else s.vx }
      else if s.px + (r.w : ℚ) > (SCREEN_WIDTH : ℚ) then
        { s with px := ((SCREEN_WIDTH - r.w : ℤ) : ℚ),
                 vx := if s.vx > 0 then 0 else s.vx }
      else s
    if s1.py < 0 then
      { s1 with py := 0, vy := if s1.vy < 0 then 0 else s1.vy }
    else if s1.py + (r.h : ℚ) > (GAME_AREA_HEIGHT : ℚ) then
      { s1 with py := ((GAME_AREA_HEIGHT - r.h : ℤ) : ℚ), isOnGround := true,
                vy := if s1.vy > 0 then 0 else s1.vy }
    else s1

/-! ## `Player.update` (`player-copy.py` lines 241–268) -/

/-- Lines 246–252: initialise `self.rect` before collision checks if `None`. -/
def ensureRect (s : PState) : PState :=
  match s.rect with
  | some _ => s
  | none => match s.image with
    | some im => { s with rect := some (rectAtTopleft im (pyRound s.px) (pyRound s.py)) }
    | none => { s with rect := some ⟨pyRound s.px, pyRound s.py,
                                     32 * s.scaleFactor, 32 * s.scaleFactor⟩ }

/-- Lines 264–265: `self.rect.topleft = (round(position.x), round(position.y))`. -/
def rectSync (s : PState) : PState :=
  match s.rect with
  | none => s
  | some r => { s with rect := some { r with x := pyRound s.px, y := pyRound s.py } }

/-- Steps 1–4 of `Player.update`: input/integration, rect guard, platform
collisions, screen boundaries, rect re-sync. -/
def updateMovement (k : Keys) (dt : ℚ) (ps : List Rect) (s : PState) : PState :=
  rectSync (applyScreenBoundaries (handlePlatformCollisions ps
    (ensureRect (handleInputAndMovement k dt s))))

/-- The full per-frame `Player.update(dt, platforms)`. -/
def update (k : Keys) (dt : ℚ) (ps : List Rect) (s : PState) : PState :=
  updateAnimation (updateMovement k dt ps s)

/-! ## `Player.__init__` (`player-copy.py` lines 9–41)

`load_animations` produces the animations table from the spritesheet; the
constructor is parameterised directly by that table (images as sizes). -/

def mkPlayer (anims : List (String × List Frame)) (initial : String)
    (pos : ℚ × ℚ) (ticksPerFrame : ℕ) : PState :=
  let base : PState :=
    { px := pos.1, py := pos.2, vx := 0, vy := 0, isOnGround := false,
      rect := none, image := none, currentAnimationName := none,
      currentFrames := [], currentFrameIndex := 0,
      animationTicksPerFrame := ticksPerFrame, ticksSinceLastFrameChange := 0,
      animations := anims, speedPps := PLAYER_SPEED_PPS,
      gravityPps := PLAYER_GRAVITY_PPS, scaleFactor := PLAYER_SCALE_FACTOR }
  if !initial.isEmpty && framesTruthy (List.lookup initial anims) then
    setAnimation initial base
  else
    let img : Frame := (32 * base.scaleFactor, 32 * base.scaleFactor)
    { base with image := some img,
                rect := some (rectAtTopleft img (pyInt pos.1) (pyInt pos.2)) }

/-- One externally-triggered operation on a `Player`. -/
inductive PlayerOp where
  | setAnim (nm : String)
  | tick (k : Keys) (dt : ℚ) (ps : List Rect)

def applyOp (s : PState) (op : PlayerOp) : PState :=
  match op with
  | .setAnim nm => setAnimation nm s
  | .tick k dt ps => update k dt ps s

/-! ## `Spritesheet.get_image` (`src/spritesheet.py` lines 24–43)

Only the size of the returned surface is modelled: the blit copies pixels,
and `pygame.transform.scale` resizes to `(int(width * scale), int(height *
scale))` when `scale` is truthy (`None`, `0` and `0.0` are falsy). -/

def getImageSize (width height : ℤ) (scale : Option ℚ) : ℤ × ℤ :=
  match scale with
  | some sc => if sc ≠ 0 then (pyInt ((width : ℚ) * sc), pyInt ((height : ℚ) * sc))
               else (width, height)
  | none => (width, height)

/-! ## Projections and observations used by the theorems -/

/-- The animation playback cursor: current animation name, its frame list,
the frame index and the tick counter. -/
def cursorOf (s : PState) : Option String × List Frame × ℕ × ℕ :=
  (s.currentAnimationName, s.currentFrames, s.currentFrameIndex,
   s.ticksSinceLastFrameChange)

/-- The motion state: position, velocity and grounded flag. -/
def motionOf (s : PState) : ℚ × ℚ × ℚ × ℚ × Bool :=
  (s.px, s.py, s.vx, s.vy, s.isOnGround)

/-- The immutable configuration of a player. -/
def configOf (s : PState) : List (String × List Frame) × ℕ × ℚ × ℚ × ℤ :=
  (s.animations, s.animationTicksPerFrame, s.speedPps, s.gravityPps, s.scaleFactor)

/-- Closed form of the cursor component of `setAnimation`: the cursor after
the call as a function of the cursor before it and the animations table. -/
def saCursor (nm : String) (anims : List (String × List Frame))
    (cn : Option String) (cf : List Frame) (i t : ℕ) :
    Option String × List Frame × ℕ × ℕ :=
  if cn = some nm ∧ cf ≠ [] then (cn, cf, i, t)
  else if anims = [] then (cn, cf, i, t)
  else
    match List.lookup nm anims with
    | some (f :: fs) => (some nm, f :: fs, 0, 0)
    | _ =>
      if cf ≠ [] ∧ optStrTruthy cn ∧
         framesTruthy (match cn with
                       | some x => List.lookup x anims
                       | none => none) then (cn, cf, i, t)
      else
        match anims.find? (fun kv => !kv.2.isEmpty) with
        | some kv => (some kv.1, kv.2, 0, 0)
        | none => (some nm, [], 0, 0)

/-- Closed form of the cursor component of `advanceFrame`. -/
def afCursor (ticksPerFrame : ℕ) (cn : Option String) (cf : List Frame)
    (i t : ℕ) : Option String × List Frame × ℕ × ℕ :=
  if cf = [] then (cn, cf, i, t)
  else if t + 1 ≥ ticksPerFrame then (cn, cf, (i + 1) % cf.length, 0)
  else (cn, cf, i, t + 1)

/-- Closed form of the cursor component of `update_animation`. -/
def uaCursor (vx vy : ℚ) (ground : Bool) (anims : List (String × List Frame))
    (ticksPerFrame : ℕ) (cn : Option String) (cf : List Frame) (i t : ℕ) :
    Option String × List Frame × ℕ × ℕ :=
  let target := animTargetName vx vy ground
  let c1 := if cn ≠ some target ∨ cf = [] then saCursor target anims cn cf i t
            else (cn, cf, i, t)
  afCursor ticksPerFrame c1.1 c1.2.1 c1.2.2.1 c1.2.2.2

/-- The animation-cursor well-formedness invariant (claim C7, amended):
the frame index is in range when frames exist, and pinned to 0 otherwise. -/
def cursorInv (s : PState) : Prop :=
  s.currentFrameIndex < s.currentFrames.length ∨
  (s.currentFrames = [] ∧ s.currentFrameIndex = 0)

/-! ## Ground events of one frame (claim C3)

`downwardClampEvent` replays the frame up to the vertical collision pass and
reports whether that pass performed a downward clamp (moving down with a
non-empty vertical hit list); `floorClampEvent` replays up to the boundary
stage and reports whether the game-area floor clamp fired. -/

/-- The state just before the vertical collision loop of a frame. -/
def preVerticalState (k : Keys) (dt : ℚ) (ps : List Rect) (s : PState) : PState :=
  horizontalPass ps (collisionGuard (ensureRect (handleInputAndMovement k dt s)))

/-- The state after both collision passes of a frame, just before the
screen-boundary stage. -/
def postCollisionState (k : Keys) (dt : ℚ) (ps : List Rect) (s : PState) : PState :=
  handlePlatformCollisions ps (ensureRect (handleInputAndMovement k dt s))

def downwardClampEvent (k : Keys) (dt : ℚ) (ps : List Rect) (s : PState) : Bool :=
  let sh := preVerticalState k dt ps s
  match sh.rect with
  | none => false
  | some r =>
    decide (0 < sh.vy) &&
    !(ps.filter (fun p => collideB { r with y := pyRound sh.py } p)).isEmpty

def floorClampEvent (k : Keys) (dt : ℚ) (ps : List Rect) (s : PState) : Bool :=
  let sv := postCollisionState k dt ps s
  match sv.rect with
  | none => false
  | some r =>
    !(decide (sv.py < 0)) && decide (sv.py + (r.h : ℚ) > (GAME_AREA_HEIGHT : ℚ))

/-! ## Exception-explicit movement routine (claim C9)

The only operations in `handle_input_and_movement`, `handle_platform_collisions`
and `apply_screen_boundaries` that can raise in Python are attribute accesses
on `self.rect` when it is `None`; every such access sits behind an explicit
`is None` guard in the source.  The embedding below makes each unguarded
access an `Except.error` and transcribes the guards; the claim is that the
routine always returns `Except.ok`. -/

def getRectE (o : Option Rect) : Except String Rect :=
  match o with
  | some r => Except.ok r
  | none => Except.error "AttributeError: NoneType has no attribute"

def handlePlatformCollisionsE (ps : List Rect) (s : PState) : Except String PState := do
  let s0 := collisionGuard s                     -- lines 134–136
  let r0 ← getRectE s0.rect                      -- line 138 accesses self.rect.x
  let r1 := { r0 with x := pyRound s0.px }
  let hitsX := ps.filter (fun p => collideB r1 p)
  let resX := hitsX.foldl hStep ⟨r1, s0.px, s0.vx⟩
  let s1 := { s0 with rect := some resX.rect, px := resX.px, vx := resX.vx }
  let r2 ← getRectE s1.rect                      -- line 151 accesses self.rect.y
  let r3 := { r2 with y := pyRound s1.py }
  let hitsY := ps.filter (fun p => collideB r3 p)
  let resY := hitsY.foldl vStep ⟨r3, s1.py, s1.vy, false⟩
  return { s1 with rect := some resY.rect, py := resY.py, vy := resY.vy,
                   isOnGround := resY.ground }

/-- `apply_screen_boundaries` returns silently when `self.rect is None`
(lines 173–174), so it has no failing access. -/
def applyScreenBoundariesE (s : PState) : Except String PState :=
  Except.ok (applyScreenBoundaries s)

/-- The final rect re-sync is guarded by `if self.rect is not None` (line 264). -/
def rectSyncE (s : PState) : Except String PState :=
  Except.ok (rectSync s)

/-- Steps 1–4 of `Player.update` with explicit exception propagation. -/
def updateMovementE (k : Keys) (dt : ℚ) (ps : List Rect) (s : PState) :
    Except String PState := do
  let s1 := handleInputAndMovement k dt s   -- touches only position/velocity
  let s2 := ensureRect s1                   -- lines 246–252 guard
  let s3 ← handlePlatformCollisionsE ps s2
  let s4 ← applyScreenBoundariesE s3
  rectSyncE s4

/-! ## Concrete states used by the witnesses and counterexamples -/

def keysNone : Keys := ⟨false, false, false, false⟩
def keysRight : Keys := ⟨false, true, false, false⟩
def keysUp : Keys := ⟨false, false, true, false⟩

/-- A 72×72 frame (a 24×24 sprite at scale 3). -/
def fr72 : Frame := (72, 72)

/-- A small animations table of the shape `main2.py` builds. -/
def animsStd : List (String × List Frame) :=
  [("idle_front", [fr72]),
   ("walk_right", [fr72, fr72, fr72, fr72]),
   ("walk_left", [fr72, fr72, fr72, fr72])]

/-- A grounded, resting player whose float x-position is fractional and whose
rect overlaps a platform. -/
def restOverlapState : PState :=
  { px := mkRat 1 2, py := 100, vx := 0, vy := 0, isOnGround := true,
    rect := some ⟨0, 100, 72, 72⟩, image := some fr72,
    currentAnimationName := some "idle_front", currentFrames := [fr72],
    currentFrameIndex := 0, animationTicksPerFrame := 7,
    ticksSinceLastFrameChange := 0, animations := animsStd,
    speedPps := PLAYER_SPEED_PPS, gravityPps := PLAYER_GRAVITY_PPS,
    scaleFactor := PLAYER_SCALE_FACTOR }

def overlapPlatform : Rect := ⟨10, 100, 50, 50⟩

/-- A grounded, resting player standing clear of any platform. -/
def restFreeState : PState :=
  { restOverlapState with px := 100, py := 360,
                          rect := some ⟨100, 360, 72, 72⟩ }

/-- A player walking right, mid-way through the `walk_right` animation. -/
def walkMidState : PState :=
  { px := 100, py := 360, vx := 500, vy := 0, isOnGround := true,
    rect := some ⟨100, 360, 72, 72⟩, image := some fr72,
    currentAnimationName := some "walk_right",
    currentFrames := [fr72, fr72, fr72, fr72],
    currentFrameIndex := 2, animationTicksPerFrame := 2,
    ticksSinceLastFrameChange := 1, animations := animsStd,
    speedPps := PLAYER_SPEED_PPS, gravityPps := PLAYER_GRAVITY_PPS,
    scaleFactor := PLAYER_SCALE_FACTOR }

/-- A freshly-set `walk_right` animation with `animation_ticks_per_frame = 2`. -/
def walkFreshState : PState :=
  { walkMidState with currentFrameIndex := 0, ticksSinceLastFrameChange := 0 }

/-- A player moving right whose integrated rect overlaps `wallPlatform`. -/
def movingRightState : PState :=
  { walkMidState with px := 350, py := 100, rect := some ⟨350, 100, 72, 72⟩,
                      vy := 0, isOnGround := false }

def wallPlatform : Rect := ⟨400, 50, 100, 300⟩

/-- A player below the game-area floor while flying upward (up key held). -/
def belowFloorState : PState :=
  { restOverlapState with px := 100, py := 500, isOnGround := false,
                          rect := some ⟨100, 500, 72, 72⟩ }

/-! # Helper lemmas -/

theorem collisionGuard_of_some {s : PState} {r : Rect} (h : s.rect = some r) :
    collisionGuard s = s := by
  unfold collisionGuard
  rw [h]

theorem ensureRect_isSome (s : PState) : ∃ r, (ensureRect s).rect = some r := by
  unfold ensureRect
  split
  · rename_i r heq
    exact ⟨r, heq⟩
  · split <;> exact ⟨_, rfl⟩

theorem setAnimationCommit_cursorOf (nm : String) (fr : List Frame) (s : PState) :
    cursorOf (setAnimationCommit nm fr s) = (some nm, fr, 0, 0) := by
  unfold setAnimationCommit cursorOf
  repeat' split
  all_goals rfl

theorem setAnimationCommit_motion (nm : String) (fr : List Frame) (s : PState) :
    motionOf (setAnimationCommit nm fr s) = motionOf s ∧
    configOf (setAnimationCommit nm fr s) = configOf s := by
  unfold setAnimationCommit motionOf configOf
  repeat' split
  all_goals exact ⟨rfl, rfl⟩

theorem setAnimation_cursorOf (nm : String) (s : PState) :
    cursorOf (setAnimation nm s) =
      saCursor nm s.animations s.currentAnimationName s.currentFrames
        s.currentFrameIndex s.ticksSinceLastFrameChange := by
  unfold setAnimation saCursor
  repeat' split
  all_goals first
    | rfl
    | exact setAnimationCommit_cursorOf _ _ _

theorem setAnimation_motion (nm : String) (s : PState) :
    motionOf (setAnimation nm s) = motionOf s ∧
    configOf (setAnimation nm s) = configOf s := by
  unfold setAnimation
  repeat' split
  all_goals first
    | exact ⟨rfl, rfl⟩
    | exact setAnimationCommit_motion _ _ _

theorem advanceFrame_cursorOf (s : PState) :
    cursorOf (advanceFrame s) =
      afCursor s.animationTicksPerFrame s.currentAnimationName s.currentFrames
        s.currentFrameIndex s.ticksSinceLastFrameChange := by
  simp only [advanceFrame, afCursor, cursorOf]
  repeat' split
  all_goals rfl

theorem advanceFrame_motion (s : PState) :
    motionOf (advanceFrame s) = motionOf s ∧
    configOf (advanceFrame s) = configOf s := by
  simp only [advanceFrame, motionOf, configOf]
  repeat' split
  all_goals exact ⟨rfl, rfl⟩

theorem updateAnimation_cursorOf (s : PState) :
    cursorOf (updateAnimation s) =
      uaCursor s.vx s.vy s.isOnGround s.animations s.animationTicksPerFrame
        s.currentAnimationName s.currentFrames s.currentFrameIndex
        s.ticksSinceLastFrameChange := by
  simp only [updateAnimation, uaCursor]
  by_cases hc : s.currentAnimationName ≠
      some (animTargetName s.vx s.vy s.isOnGround) ∨ s.currentFrames = []
  · rw [if_pos hc, if_pos hc, advanceFrame_cursorOf]
    have h1 := setAnimation_cursorOf (animTargetName s.vx s.vy s.isOnGround) s
    have h2 := (setAnimation_motion (animTargetName s.vx s.vy s.isOnGround) s).2
    simp only [cursorOf] at h1
    simp only [configOf, Prod.mk.injEq] at h2
    rw [← h1, h2.2.1]
  · rw [if_neg hc, if_neg hc, advanceFrame_cursorOf]

theorem updateAnimation_motion (s : PState) :
    motionOf (updateAnimation s) = motionOf s ∧
    configOf (updateAnimation s) = configOf s := by
  simp only [updateAnimation]
  split
  · exact ⟨(advanceFrame_motion _).1.trans (setAnimation_motion _ _).1,
           (advanceFrame_motion _).2.trans (setAnimation_motion _ _).2⟩
  · exact advanceFrame_motion s

/-! ### The movement pipeline does not touch the animation cursor -/

theorem collisionGuard_cursorConfig (s : PState) :
    cursorOf (collisionGuard s) = cursorOf s ∧
    configOf (collisionGuard s) = configOf s := by
  unfold collisionGuard
  repeat' split
  all_goals exact ⟨rfl, rfl⟩

theorem ensureRect_cursorConfig (s : PState) :
    cursorOf (ensureRect s) = cursorOf s ∧
    configOf (ensureRect s) = configOf s := by
  unfold ensureRect
  repeat' split
  all_goals exact ⟨rfl, rfl⟩

theorem horizontalPass_cursorConfig (ps : List Rect) (s : PState) :
    cursorOf (horizontalPass ps s) = cursorOf s ∧
    configOf (horizontalPass ps s) = configOf s := by
  unfold horizontalPass
  split
  all_goals exact ⟨rfl, rfl⟩

theorem verticalPass_cursorConfig (ps : List Rect) (s : PState) :
    cursorOf (verticalPass ps s) = cursorOf s ∧
    configOf (verticalPass ps s) = configOf s := by
  unfold verticalPass
  split
  all_goals exact ⟨rfl, rfl⟩

theorem applyScreenBoundaries_cursorConfig (s : PState) :
    cursorOf (applyScreenBoundaries s) = cursorOf s ∧
    configOf (applyScreenBoundaries s) = configOf s := by
  simp only [applyScreenBoundaries, cursorOf, configOf]
  repeat' split
  all_goals exact ⟨rfl, rfl⟩

theorem rectSync_cursorConfig (s : PState) :
    cursorOf (rectSync s) = cursorOf s ∧
    configOf (rectSync s) = configOf s := by
  unfold rectSync
  split
  all_goals exact ⟨rfl, rfl⟩

theorem updateMovement_cursorConfig (k : Keys) (dt : ℚ) (ps : List Rect) (s : PState) :
    cursorOf (updateMovement k dt ps s) = cursorOf s ∧
    configOf (updateMovement k dt ps s) = configOf s := by
  unfold updateMovement handlePlatformCollisions
  refine ⟨?_, ?_⟩
  · exact ((rectSync_cursorConfig _).1.trans
      ((applyScreenBoundaries_cursorConfig _).1.trans
        ((verticalPass_cursorConfig _ _).1.trans
          ((horizontalPass_cursorConfig _ _).1.trans
            ((collisionGuard_cursorConfig _).1.trans
              (ensureRect_cursorConfig _).1)))))
  · exact ((rectSync_cursorConfig _).2.trans
      ((applyScreenBoundaries_cursorConfig _).2.trans
        ((verticalPass_cursorConfig _ _).2.trans
          ((horizontalPass_cursorConfig _ _).2.trans
            ((collisionGuard_cursorConfig _).2.trans
              (ensureRect_cursorConfig _).2)))))

/-! ### The collision loops -/

theorem hStep_of_vx_zero (st : HFold) (p : Rect) (h : st.vx = 0) :
    hStep st p = ⟨st.rect, (st.rect.x : ℚ), 0⟩ := by
  simp only [hStep, h]
  norm_num

theorem hStep_of_vx_pos (st : HFold) (p : Rect) (h : 0 < st.vx) :
    hStep st p = ⟨{ st.rect with x := p.x - st.rect.w },
                  ((p.x - st.rect.w : ℤ) : ℚ), 0⟩ := by
  simp only [hStep, if_pos h]

theorem hStep_of_vx_neg (st : HFold) (p : Rect) (h : st.vx < 0) :
    hStep st p = ⟨{ st.rect with x := p.x + p.w },
                  ((p.x + p.w : ℤ) : ℚ), 0⟩ := by
  simp only [hStep, if_neg (not_lt.mpr h.le), if_pos h]

theorem hfold_fix : ∀ (l : List Rect) (st : HFold), st.vx = 0 →
    st.px = (st.rect.x : ℚ) → l.foldl hStep st = st := by
  intro l
  induction l with
  | nil => intro st _ _; rfl
  | cons p t ih =>
    intro st h1 h2
    rw [List.foldl_cons, hStep_of_vx_zero st p h1]
    have he : (⟨st.rect, (st.rect.x : ℚ), 0⟩ : HFold) = st := by
      obtain ⟨r, px, vx⟩ := st
      dsimp only at h1 h2
      rw [h1, h2]
    rw [he]
    exact ih st h1 h2

theorem hfold_cons_zero (p : Rect) (t : List Rect) (st : HFold) (h : st.vx = 0) :
    ((p :: t).foldl hStep st) = ⟨st.rect, (st.rect.x : ℚ), 0⟩ := by
  rw [List.foldl_cons, hStep_of_vx_zero st p h]
  exact hfold_fix t _ rfl rfl

theorem hfold_cons_pos (p : Rect) (t : List Rect) (st : HFold) (h : 0 < st.vx) :
    ((p :: t).foldl hStep st) =
      ⟨{ st.rect with x := p.x - st.rect.w }, ((p.x - st.rect.w : ℤ) : ℚ), 0⟩ := by
  rw [List.foldl_cons, hStep_of_vx_pos st p h]
  exact hfold_fix t _ rfl rfl

theorem hfold_cons_neg (p : Rect) (t : List Rect) (st : HFold) (h : st.vx < 0) :
    ((p :: t).foldl hStep st) =
      ⟨{ st.rect with x := p.x + p.w }, ((p.x + p.w : ℤ) : ℚ), 0⟩ := by
  rw [List.foldl_cons, hStep_of_vx_neg st p h]
  exact hfold_fix t _ rfl rfl

theorem vStep_of_vy_zero (st : VFold) (p : Rect) (h : st.vy = 0) :
    vStep st p = ⟨st.rect, (st.rect.y : ℚ), 0, st.ground⟩ := by
  simp only [vStep, h]
  norm_num

theorem vStep_of_vy_pos (st : VFold) (p : Rect) (h : 0 < st.vy) :
    vStep st p = ⟨{ st.rect with y := p.y - st.rect.h },
                  ((p.y - st.rect.h : ℤ) : ℚ), 0, true⟩ := by
  simp only [vStep, if_pos h]

theorem vStep_of_vy_neg (st : VFold) (p : Rect) (h : st.vy < 0) :
    vStep st p = ⟨{ st.rect with y := p.y + p.h },
                  ((p.y + p.h : ℤ) : ℚ), 0, st.ground⟩ := by
  simp only [vStep, if_neg (not_lt.mpr h.le), if_pos h]

theorem vfold_fix : ∀ (l : List Rect) (st : VFold), st.vy = 0 →
    st.py = (st.rect.y : ℚ) → l.foldl vStep st = st := by
  intro l
  induction l with
  | nil => intro st _ _; rfl
  | cons p t ih =>
    intro st h1 h2
    rw [List.foldl_cons, vStep_of_vy_zero st p h1]
    have he : (⟨st.rect, (st.rect.y : ℚ), 0, st.ground⟩ : VFold) = st := by
      obtain ⟨r, py, vy, g⟩ := st
      dsimp only at h1 h2
      rw [h1, h2]
    rw [he]
    exact ih st h1 h2

theorem vfold_cons_zero (p : Rect) (t : List Rect) (st : VFold) (h : st.vy = 0) :
    ((p :: t).foldl vStep st) = ⟨st.rect, (st.rect.y : ℚ), 0, st.ground⟩ := by
  rw [List.foldl_cons, vStep_of_vy_zero st p h]
  exact vfold_fix t _ rfl rfl

theorem vfold_cons_pos (p : Rect) (t : List Rect) (st : VFold) (h : 0 < st.vy) :
    ((p :: t).foldl vStep st) =
      ⟨{ st.rect with y := p.y - st.rect.h }, ((p.y - st.rect.h : ℤ) : ℚ), 0, true⟩ := by
  rw [List.foldl_cons, vStep_of_vy_pos st p h]
  exact vfold_fix t _ rfl rfl

theorem vfold_cons_neg (p : Rect) (t : List Rect) (st : VFold) (h : st.vy < 0) :
    ((p :: t).foldl vStep st) =
      ⟨{ st.rect with y := p.y + p.h }, ((p.y + p.h : ℤ) : ℚ), 0, st.ground⟩ := by
  rw [List.foldl_cons, vStep_of_vy_neg st p h]
  exact vfold_fix t _ rfl rfl

theorem vStep_rect_xw (st : VFold) (p : Rect) :
    (vStep st p).rect.x = st.rect.x ∧ (vStep st p).rect.w = st.rect.w := by
  simp only [vStep]
  repeat' split
  all_goals exact ⟨rfl, rfl⟩

theorem vfold_rect_xw : ∀ (l : List Rect) (st : VFold),
    ((l.foldl vStep st).rect.x = st.rect.x ∧ (l.foldl vStep st).rect.w = st.rect.w) := by
  intro l
  induction l with
  | nil => intro st; exact ⟨rfl, rfl⟩
  | cons p t ih =>
    intro st
    rw [List.foldl_cons]
    exact ⟨(ih _).1.trans (vStep_rect_xw st p).1, (ih _).2.trans (vStep_rect_xw st p).2⟩

/-! ### Pass-level descriptions -/

theorem horizontalPass_of_some {ps : List Rect} {s : PState} {r : Rect}
    (h : s.rect = some r) :
    horizontalPass ps s =
      { s with rect := some (((ps.filter fun p =>
                  collideB { r with x := pyRound s.px } p).foldl hStep
                  ⟨{ r with x := pyRound s.px }, s.px, s.vx⟩).rect),
               px := ((ps.filter fun p =>
                  collideB { r with x := pyRound s.px } p).foldl hStep
                  ⟨{ r with x := pyRound s.px }, s.px, s.vx⟩).px,
               vx := ((ps.filter fun p =>
                  collideB { r with x := pyRound s.px } p).foldl hStep
                  ⟨{ r with x := pyRound s.px }, s.px, s.vx⟩).vx } := by
  simp only [horizontalPass, h]

theorem verticalPass_of_some {ps : List Rect} {s : PState} {r : Rect}
    (h : s.rect = some r) :
    verticalPass ps s =
      { s with rect := some (((ps.filter fun p =>
                  collideB { r with y := pyRound s.py } p).foldl vStep
                  ⟨{ r with y := pyRound s.py }, s.py, s.vy, false⟩).rect),
               py := ((ps.filter fun p =>
                  collideB { r with y := pyRound s.py } p).foldl vStep
                  ⟨{ r with y := pyRound s.py }, s.py, s.vy, false⟩).py,
               vy := ((ps.filter fun p =>
                  collideB { r with y := pyRound s.py } p).foldl vStep
                  ⟨{ r with y := pyRound s.py }, s.py, s.vy, false⟩).vy,
               isOnGround := ((ps.filter fun p =>
                  collideB { r with y := pyRound s.py } p).foldl vStep
                  ⟨{ r with y := pyRound s.py }, s.py, s.vy, false⟩).ground } := by
  simp only [verticalPass, h]

theorem horizontalPass_vert (ps : List Rect) (s : PState) :
    (horizontalPass ps s).py = s.py ∧ (horizontalPass ps s).vy = s.vy ∧
    (horizontalPass ps s).isOnGround = s.isOnGround := by
  unfold horizontalPass
  split
  all_goals exact ⟨rfl, rfl, rfl⟩

theorem verticalPass_horiz (ps : List Rect) (s : PState) :
    (verticalPass ps s).px = s.px ∧ (verticalPass ps s).vx = s.vx := by
  unfold verticalPass
  split
  all_goals exact ⟨rfl, rfl⟩

theorem verticalPass_ground {ps : List Rect} {s : PState} {r : Rect}
    (h : s.rect = some r) :
    (verticalPass ps s).isOnGround =
      (decide (0 < s.vy) &&
       !(ps.filter fun p => collideB { r with y := pyRound s.py } p).isEmpty) := by
  rw [verticalPass_of_some h]
  rcases hl : (ps.filter fun p => collideB { r with y := pyRound s.py } p) with _ | ⟨p, t⟩
  · simp
  · rcases lt_trichotomy s.vy 0 with hv | hv | hv
    · rw [vfold_cons_neg p t _ hv]
      have hnot : ¬ (0 < s.vy) := not_lt.mpr hv.le
      simp [hnot]
    · rw [vfold_cons_zero p t _ hv]
      have hnot : ¬ (0 < s.vy) := by rw [hv]; exact lt_irrefl 0
      simp [hnot]
    · rw [vfold_cons_pos p t _ hv]
      simp [hv]

theorem applyScreenBoundaries_ground {s : PState} {r : Rect} (h : s.rect = some r) :
    (applyScreenBoundaries s).isOnGround =
      (s.isOnGround ||
       (!(decide (s.py < 0)) &&
        decide (s.py + (r.h : ℚ) > (GAME_AREA_HEIGHT : ℚ)))) := by
  simp only [applyScreenBoundaries, h]
  repeat' split
  all_goals simp_all

theorem applyScreenBoundaries_floor {s : PState} {r : Rect} (h : s.rect = some r)
    (h0 : ¬ s.py < 0) (h1 : s.py + (r.h : ℚ) > (GAME_AREA_HEIGHT : ℚ)) :
    (applyScreenBoundaries s).py = ((GAME_AREA_HEIGHT - r.h : ℤ) : ℚ) ∧
    (applyScreenBoundaries s).isOnGround = true ∧
    (applyScreenBoundaries s).vy = (if 0 < s.vy then 0 else s.vy) := by
  simp only [applyScreenBoundaries, h]
  repeat' split
  all_goals simp_all

theorem applyScreenBoundaries_inside {s : PState} {r : Rect} (h : s.rect = some r)
    (hx0 : ¬ s.px < 0) (hx1 : ¬ s.px + (r.w : ℚ) > (SCREEN_WIDTH : ℚ))
    (hy0 : ¬ s.py < 0) (hy1 : ¬ s.py + (r.h : ℚ) > (GAME_AREA_HEIGHT : ℚ)) :
    applyScreenBoundaries s = s := by
  simp only [applyScreenBoundaries, h, if_neg hx0, if_neg hx1]
  rw [if_neg hy0, if_neg hy1]

theorem handleInput_rest (k : Keys) (dt : ℚ) (s : PState)
    (hl : k.left = false) (hr : k.right = false) (hu : k.up = false)
    (hd : k.down = false) (hg : s.isOnGround = true) :
    handleInputAndMovement k dt s = { s with vx := 0, vy := 0 } := by
  simp [handleInputAndMovement, hl, hr, hu, hd, hg]

theorem ensureRect_of_some {s : PState} {r : Rect} (h : s.rect = some r) :
    ensureRect s = s := by
  unfold ensureRect
  rw [h]

theorem rectSync_ground (s : PState) : (rectSync s).isOnGround = s.isOnGround := by
  unfold rectSync; split <;> rfl

theorem rectSync_px (s : PState) : (rectSync s).px = s.px := by
  unfold rectSync; split <;> rfl

theorem rectSync_py (s : PState) : (rectSync s).py = s.py := by
  unfold rectSync; split <;> rfl

theorem rectSync_vx (s : PState) : (rectSync s).vx = s.vx := by
  unfold rectSync; split <;> rfl

theorem rectSync_vy (s : PState) : (rectSync s).vy = s.vy := by
  unfold rectSync; split <;> rfl

theorem updateAnimation_motion_fields (s : PState) :
    (updateAnimation s).px = s.px ∧ (updateAnimation s).py = s.py ∧
    (updateAnimation s).vx = s.vx ∧ (updateAnimation s).vy = s.vy ∧
    (updateAnimation s).isOnGround = s.isOnGround := by
  have h := (updateAnimation_motion s).1
  simp only [motionOf, Prod.mk.injEq] at h
  exact ⟨h.1, h.2.1, h.2.2.1, h.2.2.2.1, h.2.2.2.2⟩

theorem horizontalPass_no_hits {ps : List Rect} {u : PState} {r : Rect}
    (h : u.rect = some r)
    (hf : ∀ p ∈ ps, collideB { r with x := pyRound u.px } p = false) :
    horizontalPass ps u = { u with rect := some { r with x := pyRound u.px } } := by
  rw [horizontalPass_of_some h,
      List.filter_eq_nil_iff.mpr (fun a ha => by simp [hf a ha])]
  rfl

theorem verticalPass_no_hits {ps : List Rect} {u : PState} {r : Rect}
    (h : u.rect = some r)
    (hf : ∀ p ∈ ps, collideB { r with y := pyRound u.py } p = false) :
    verticalPass ps u =
      { u with rect := some { r with y := pyRound u.py }, isOnGround := false } := by
  rw [verticalPass_of_some h,
      List.filter_eq_nil_iff.mpr (fun a ha => by simp [hf a ha])]
  rfl

theorem verticalPass_rect_xw (ps : List Rect) {s : PState} {r : Rect}
    (h : s.rect = some r) :
    ∃ rr, (verticalPass ps s).rect = some rr ∧ rr.x = r.x ∧ rr.w = r.w ∧
          (verticalPass ps s).px = s.px ∧ (verticalPass ps s).vx = s.vx := by
  rw [verticalPass_of_some h]
  exact ⟨_, rfl, (vfold_rect_xw _ _).1, (vfold_rect_xw _ _).2, rfl, rfl⟩

/-! # Claim theorems -/

/-- C3: after every completed per-frame update, `is_on_ground` is true iff
that frame's vertical resolution produced a downward platform clamp
(`velocity.y > 0` with a non-empty vertical hit list) or a floor-boundary
clamp against the playable-area bottom; in particular it is false after a
frame that moves the player upward off a platform with no new downward
collision, because the flag is reset before the vertical pass. -/
theorem grounding_invariant (k : Keys) (dt : ℚ) (ps : List Rect) (s : PState) :
    (update k dt ps s).isOnGround =
      (downwardClampEvent k dt ps s || floorClampEvent k dt ps s) := by
  obtain ⟨r0, hr0⟩ := ensureRect_isSome (handleInputAndMovement k dt s)
  have hcg : collisionGuard (ensureRect (handleInputAndMovement k dt s)) =
      ensureRect (handleInputAndMovement k dt s) := collisionGuard_of_some hr0
  have hpre : preVerticalState k dt ps s =
      horizontalPass ps (ensureRect (handleInputAndMovement k dt s)) := by
    rw [preVerticalState, hcg]
  obtain ⟨rh, hrh⟩ : ∃ rh, (preVerticalState k dt ps s).rect = some rh := by
    rw [hpre, horizontalPass_of_some hr0]
    exact ⟨_, rfl⟩
  have hpost : postCollisionState k dt ps s =
      verticalPass ps (preVerticalState k dt ps s) := by
    rw [postCollisionState, handlePlatformCollisions, hcg, hpre]
  obtain ⟨rv, hrv⟩ : ∃ rv, (postCollisionState k dt ps s).rect = some rv := by
    rw [hpost, verticalPass_of_some hrh]
    exact ⟨_, rfl⟩
  have hupd : update k dt ps s =
      updateAnimation (rectSync (applyScreenBoundaries (postCollisionState k dt ps s))) := by
    rw [update, updateMovement, postCollisionState, handlePlatformCollisions]
  have hg2 : (postCollisionState k dt ps s).isOnGround =
      (decide (0 < (preVerticalState k dt ps s).vy) &&
       !(ps.filter (fun p =>
          collideB { rh with y := pyRound (preVerticalState k dt ps s).py } p)).isEmpty) := by
    rw [hpost]
    exact verticalPass_ground hrh
  rw [hupd, (updateAnimation_motion_fields _).2.2.2.2, rectSync_ground,
      applyScreenBoundaries_ground hrv, hg2, downwardClampEvent, floorClampEvent]
  simp only [hrh, hrv]

/-- C9: the per-frame movement-and-collision routine (input-to-velocity,
integration, both platform collision passes, boundary clamping and the rect
re-sync) never raises: with each `self.rect` attribute access modelled as a
fallible operation, the routine always returns `Except.ok` of the total
result, because every access sits behind the source's `is None` guards. -/
theorem movement_never_fails (k : Keys) (dt : ℚ) (ps : List Rect) (s : PState) :
    updateMovementE k dt ps s = Except.ok (updateMovement k dt ps s) := by
  obtain ⟨r0, hr0⟩ := ensureRect_isSome (handleInputAndMovement k dt s)
  unfold updateMovementE updateMovement handlePlatformCollisionsE
    handlePlatformCollisions applyScreenBoundariesE rectSyncE
  simp [getRectE, Bind.bind, Except.bind, Pure.pure, Except.pure,
        horizontalPass, verticalPass, hr0, collisionGuard_of_some hr0]

/-- C10: when the player's rect overlaps platforms while the velocity
component along the tested axis is exactly 0, the collision pass for that
axis applies no edge clamp (the rect stays at its snapped position, still
overlapping), does not set `is_on_ground`, yet still overwrites the position
component with `float(round(position))` and re-zeroes that velocity
component. -/
theorem zero_velocity_overlap (ps : List Rect) (s t : PState) (r q : Rect)
    (hs : s.rect = some r) (hvx : s.vx = 0)
    (hsx : ps.filter (fun p => collideB { r with x := pyRound s.px } p) ≠ [])
    (ht : t.rect = some q) (hvy : t.vy = 0)
    (hty : ps.filter (fun p => collideB { q with y := pyRound t.py } p) ≠ []) :
    ((horizontalPass ps s).rect = some { r with x := pyRound s.px } ∧
     (horizontalPass ps s).px = ((pyRound s.px : ℤ) : ℚ) ∧
     (horizontalPass ps s).vx = 0 ∧
     (horizontalPass ps s).isOnGround = s.isOnGround) ∧
    ((verticalPass ps t).rect = some { q with y := pyRound t.py } ∧
     (verticalPass ps t).py = ((pyRound t.py : ℤ) : ℚ) ∧
     (verticalPass ps t).vy = 0 ∧
     (verticalPass ps t).isOnGround = false) := by
  constructor
  · rw [horizontalPass_of_some hs]
    rcases hl : (ps.filter fun p => collideB { r with x := pyRound s.px } p)
      with _ | ⟨p, tl⟩
    · exact absurd hl hsx
    · rw [hfold_cons_zero p tl _ hvx]
      exact ⟨rfl, rfl, rfl, rfl⟩
  · rw [verticalPass_of_some ht]
    rcases hl : (ps.filter fun p => collideB { q with y := pyRound t.py } p)
      with _ | ⟨p, tl⟩
    · exact absurd hl hty
    · rw [vfold_cons_zero p tl _ hvy]
      exact ⟨rfl, rfl, rfl, rfl⟩

/-- C2: in a frame where the player moves horizontally (`velocity.x ≠ 0`) and
the x-snapped rect overlaps platforms, the horizontal collision pass clamps
the rect against the first overlapping platform `p` — moving right,
`rect.right = p.left`; moving left, `rect.left = p.right` — writes the
corrected rect x back into `position.x`, and zeroes `velocity.x`; the
vertical pass leaves all of this intact. -/
theorem horizontal_clamp (ps : List Rect) (s : PState) (r p : Rect) (tl : List Rect)
    (hs : s.rect = some r)
    (hhits : ps.filter (fun pp => collideB { r with x := pyRound s.px } pp) = p :: tl) :
    (p ∈ ps ∧ collideB { r with x := pyRound s.px } p = true) ∧
    (0 < s.vx →
      (handlePlatformCollisions ps s).vx = 0 ∧
      (handlePlatformCollisions ps s).px = ((p.x - r.w : ℤ) : ℚ) ∧
      ∃ rr : Rect, (handlePlatformCollisions ps s).rect = some rr ∧
        rr.x + rr.w = p.x ∧
        (handlePlatformCollisions ps s).px = ((rr.x : ℤ) : ℚ)) ∧
    (s.vx < 0 →
      (handlePlatformCollisions ps s).vx = 0 ∧
      (handlePlatformCollisions ps s).px = ((p.x + p.w : ℤ) : ℚ) ∧
      ∃ rr : Rect, (handlePlatformCollisions ps s).rect = some rr ∧
        rr.x = p.x + p.w ∧
        (handlePlatformCollisions ps s).px = ((rr.x : ℤ) : ℚ)) := by
  refine ⟨?_, ?_, ?_⟩
  · have hmem : p ∈ ps.filter (fun pp => collideB { r with x := pyRound s.px } pp) := by
      rw [hhits]; exact List.mem_cons_self p tl
    exact List.mem_filter.mp hmem
  · intro hv
    have hH : (horizontalPass ps s).rect = some { r with x := p.x - r.w } ∧
        (horizontalPass ps s).px = ((p.x - r.w : ℤ) : ℚ) ∧
        (horizontalPass ps s).vx = 0 := by
      rw [horizontalPass_of_some hs, hhits, hfold_cons_pos p tl _ hv]
      exact ⟨rfl, rfl, rfl⟩
    obtain ⟨rr, hrr, hrx, hrw, hpx2, hvx2⟩ := verticalPass_rect_xw ps hH.1
    rw [handlePlatformCollisions, collisionGuard_of_some hs]
    refine ⟨hvx2.trans hH.2.2, hpx2.trans hH.2.1, rr, hrr, ?_, ?_⟩
    · have h1 : rr.x = p.x - r.w := hrx
      have h2 : rr.w = r.w := hrw
      omega
    · rw [hpx2.trans hH.2.1, (hrx : rr.x = p.x - r.w)]
  · intro hv
    have hH : (horizontalPass ps s).rect = some { r with x := p.x + p.w } ∧
        (horizontalPass ps s).px = ((p.x + p.w : ℤ) : ℚ) ∧
        (horizontalPass ps s).vx = 0 := by
      rw [horizontalPass_of_some hs, hhits, hfold_cons_neg p tl _ hv]
      exact ⟨rfl, rfl, rfl⟩
    obtain ⟨rr, hrr, hrx, hrw, hpx2, hvx2⟩ := verticalPass_rect_xw ps hH.1
    rw [handlePlatformCollisions, collisionGuard_of_some hs]
    refine ⟨hvx2.trans hH.2.2, hpx2.trans hH.2.1, rr, hrr, hrx, ?_⟩
    rw [hpx2.trans hH.2.1, (hrx : rr.x = p.x + p.w)]

theorem updateMovement_rest (ps : List Rect) (u : PState) (r : Rect)
    (hrect : u.rect = some r) (hvx : u.vx = 0) (hvy : u.vy = 0)
    (hx : ∀ p ∈ ps, collideB { r with x := pyRound u.px } p = false)
    (hy : ∀ p ∈ ps, collideB { r with x := pyRound u.px, y := pyRound u.py } p = false)
    (hb1 : 0 ≤ u.px) (hb2 : u.px + (r.w : ℚ) ≤ (SCREEN_WIDTH : ℚ))
    (hb3 : 0 ≤ u.py) (hb4 : u.py + (r.h : ℚ) ≤ (GAME_AREA_HEIGHT : ℚ)) :
    (updateAnimation (rectSync (applyScreenBoundaries (verticalPass ps
      (horizontalPass ps (collisionGuard (ensureRect u))))))).px = u.px ∧
    (updateAnimation (rectSync (applyScreenBoundaries (verticalPass ps
      (horizontalPass ps (collisionGuard (ensureRect u))))))).py = u.py ∧
    (updateAnimation (rectSync (applyScreenBoundaries (verticalPass ps
      (horizontalPass ps (collisionGuard (ensureRect u))))))).vx = 0 ∧
    (updateAnimation (rectSync (applyScreenBoundaries (verticalPass ps
      (horizontalPass ps (collisionGuard (ensureRect u))))))).vy = 0 := by
  rw [ensureRect_of_some hrect, collisionGuard_of_some hrect]
  have eH := horizontalPass_no_hits hrect hx
  have hHpx : (horizontalPass ps u).px = u.px := by rw [eH]
  have hHpy : (horizontalPass ps u).py = u.py := by rw [eH]
  have hHvx : (horizontalPass ps u).vx = u.vx := by rw [eH]
  have hHvy : (horizontalPass ps u).vy = u.vy := by rw [eH]
  have hHrect : (horizontalPass ps u).rect = some { r with x := pyRound u.px } := by
    rw [eH]
  have hy2 : ∀ p ∈ ps, collideB { { r with x := pyRound u.px } with
      y := pyRound (horizontalPass ps u).py } p = false := by
    rw [hHpy]
    exact hy
  have eW := verticalPass_no_hits hHrect hy2
  have hWpx : (verticalPass ps (horizontalPass ps u)).px = u.px := by
    rw [eW]
    exact hHpx
  have hWpy : (verticalPass ps (horizontalPass ps u)).py = u.py := by
    rw [eW]
    exact hHpy
  have hWvx : (verticalPass ps (horizontalPass ps u)).vx = 0 := by
    rw [eW]
    exact hHvx.trans hvx
  have hWvy : (verticalPass ps (horizontalPass ps u)).vy = 0 := by
    rw [eW]
    exact hHvy.trans hvy
  have hWrect : (verticalPass ps (horizontalPass ps u)).rect =
      some { { r with x := pyRound u.px } with
             y := pyRound (horizontalPass ps u).py } := by
    rw [eW]
  have eA := applyScreenBoundaries_inside hWrect
    (by rw [hWpx]; exact not_lt.mpr hb1)
    (by rw [hWpx]; exact not_lt.mpr hb2)
    (by rw [hWpy]; exact not_lt.mpr hb3)
    (by rw [hWpy]; exact not_lt.mpr hb4)
  rw [eA]
  refine ⟨?_, ?_, ?_, ?_⟩
  · rw [(updateAnimation_motion_fields _).1, rectSync_px]
    exact hWpx
  · rw [(updateAnimation_motion_fields _).2.1, rectSync_py]
    exact hWpy
  · rw [(updateAnimation_motion_fields _).2.2.1, rectSync_vx]
    exact hWvx
  · rw [(updateAnimation_motion_fields _).2.2.2.1, rectSync_vy]
    exact hWvy

/-- C1 (amended): with zero input and `is_on_ground = true`, one `update`
with any `dt` leaves `position` unchanged and ends with `velocity = (0,0)` —
provided the snapped bounding rect overlaps no platform in either collision
pass and the position lies inside the horizontal screen bounds and the
playable-area bounds.  The provisos are forced: on a platform overlap the
zero-velocity collision loop rewrites `position` to `float(round(position))`
(see the counterexample), and an out-of-bounds position is clamped. -/
theorem rest_state_update (k : Keys) (dt : ℚ) (ps : List Rect) (s : PState)
    (r : Rect)
    (hkl : k.left = false) (hkr : k.right = false) (hku : k.up = false)
    (hkd : k.down = false) (hg : s.isOnGround = true) (hrect : s.rect = some r)
    (hx : ∀ p ∈ ps, collideB { r with x := pyRound s.px } p = false)
    (hy : ∀ p ∈ ps, collideB { r with x := pyRound s.px, y := pyRound s.py } p = false)
    (hb1 : 0 ≤ s.px) (hb2 : s.px + (r.w : ℚ) ≤ (SCREEN_WIDTH : ℚ))
    (hb3 : 0 ≤ s.py) (hb4 : s.py + (r.h : ℚ) ≤ (GAME_AREA_HEIGHT : ℚ)) :
    (update k dt ps s).px = s.px ∧ (update k dt ps s).py = s.py ∧
    (update k dt ps s).vx = 0 ∧ (update k dt ps s).vy = 0 := by
  have hin := handleInput_rest k dt s hkl hkr hku hkd hg
  have hupx : (handleInputAndMovement k dt s).px = s.px := by rw [hin]
  have hupy : (handleInputAndMovement k dt s).py = s.py := by rw [hin]
  have huvx : (handleInputAndMovement k dt s).vx = 0 := by rw [hin]
  have huvy : (handleInputAndMovement k dt s).vy = 0 := by rw [hin]
  have hur : (handleInputAndMovement k dt s).rect = some r := hrect
  have key := updateMovement_rest ps (handleInputAndMovement k dt s) r hur huvx huvy
    (by rw [hupx]; exact hx) (by rw [hupx, hupy]; exact hy)
    (by rw [hupx]; exact hb1) (by rw [hupx]; exact hb2)
    (by rw [hupy]; exact hb3) (by rw [hupy]; exact hb4)
  rw [update, updateMovement, handlePlatformCollisions]
  exact ⟨key.1.trans hupx, key.2.1.trans hupy, key.2.2.1, key.2.2.2⟩

/-- C1 (witness): a grounded resting player standing free of platforms and
inside bounds keeps its position and ends with zero velocity. -/
theorem rest_state_update_witness :
    (update keysNone (mkRat 1 60) [overlapPlatform] restFreeState).px = restFreeState.px ∧
    (update keysNone (mkRat 1 60) [overlapPlatform] restFreeState).py = restFreeState.py ∧
    (update keysNone (mkRat 1 60) [overlapPlatform] restFreeState).vx = 0 ∧
    (update keysNone (mkRat 1 60) [overlapPlatform] restFreeState).vy = 0 :=
  rest_state_update keysNone (mkRat 1 60) [overlapPlatform] restFreeState
    ⟨100, 360, 72, 72⟩ rfl rfl rfl rfl rfl rfl
    (by with_unfolding_all decide) (by with_unfolding_all decide)
    (by with_unfolding_all decide) (by with_unfolding_all decide)
    (by with_unfolding_all decide) (by with_unfolding_all decide)

/-- C1 (counterexample): the claim as stated fails on a grounded, resting
state whose rect overlaps a platform and whose `position.x` is fractional —
one update with zero input changes `position.x` (to `float(round(·))`). -/
theorem rest_state_counterexample :
    restOverlapState.isOnGround = true ∧
    (update keysNone 1 [overlapPlatform] restOverlapState).px ≠
      restOverlapState.px := by
  with_unfolding_all decide

/-- C2 (witness): a player moving right at 500 px/s into a wall platform ends
the collision passes clamped to the platform's left edge with
`velocity.x = 0` and `position.x` synced from the corrected rect. -/
theorem horizontal_clamp_witness :
    (handlePlatformCollisions [wallPlatform] movingRightState).vx = 0 ∧
    (handlePlatformCollisions [wallPlatform] movingRightState).px =
      ((wallPlatform.x - 72 : ℤ) : ℚ) ∧
    ∃ rr : Rect,
      (handlePlatformCollisions [wallPlatform] movingRightState).rect = some rr ∧
      rr.x + rr.w = wallPlatform.x ∧
      (handlePlatformCollisions [wallPlatform] movingRightState).px =
        ((rr.x : ℤ) : ℚ) :=
  (horizontal_clamp [wallPlatform] movingRightState ⟨350, 100, 72, 72⟩
    wallPlatform [] rfl (by with_unfolding_all decide)).2.1
    (by with_unfolding_all decide)

/-- C10 (witness): a resting player overlapping a platform with zero velocity
on both axes keeps its snapped rect (still overlapping), has its positions
quantized to `float(round(·))`, its velocities re-zeroed, and the vertical
pass leaves `is_on_ground` false. -/
theorem zero_velocity_overlap_witness :
    ((horizontalPass [overlapPlatform] restOverlapState).rect =
        some { (⟨0, 100, 72, 72⟩ : Rect) with x := pyRound restOverlapState.px } ∧
     (horizontalPass [overlapPlatform] restOverlapState).px =
        ((pyRound restOverlapState.px : ℤ) : ℚ) ∧
     (horizontalPass [overlapPlatform] restOverlapState).vx = 0 ∧
     (horizontalPass [overlapPlatform] restOverlapState).isOnGround =
        restOverlapState.isOnGround) ∧
    ((verticalPass [overlapPlatform] restOverlapState).rect =
        some { (⟨0, 100, 72, 72⟩ : Rect) with y := pyRound restOverlapState.py } ∧
     (verticalPass [overlapPlatform] restOverlapState).py =
        ((pyRound restOverlapState.py : ℤ) : ℚ) ∧
     (verticalPass [overlapPlatform] restOverlapState).vy = 0 ∧
     (verticalPass [overlapPlatform] restOverlapState).isOnGround = false) :=
  zero_velocity_overlap [overlapPlatform] restOverlapState restOverlapState
    ⟨0, 100, 72, 72⟩ ⟨0, 100, 72, 72⟩ rfl rfl
    (by with_unfolding_all decide) rfl rfl (by with_unfolding_all decide)

/-! ### Tick arithmetic for the animation cursor -/

theorem nat_tick_roll {n N : ℕ} (hN : 1 ≤ N) (h : N ≤ n % N + 1) :
    (n + 1) % N = 0 ∧ (n + 1) / N = n / N + 1 := by
  have hlt : n % N < N := Nat.mod_lt _ hN
  have hr : n % N = N - 1 := by omega
  have he : n + 1 = (n / N + 1) * N := by
    calc n + 1 = N * (n / N) + n % N + 1 := by rw [Nat.div_add_mod]
    _ = N * (n / N) + N := by rw [hr, Nat.add_assoc, Nat.sub_add_cancel hN]
    _ = (n / N + 1) * N := by ring
  exact ⟨by rw [he, Nat.mul_mod_left],
         by rw [he, Nat.mul_div_cancel _ (by omega : 0 < N)]⟩

theorem nat_tick_stay {n N : ℕ} (hN : 1 ≤ N) (h : ¬ N ≤ n % N + 1) :
    (n + 1) % N = n % N + 1 ∧ (n + 1) / N = n / N := by
  have he : n + 1 = (n % N + 1) + (n / N) * N := by
    calc n + 1 = N * (n / N) + n % N + 1 := by rw [Nat.div_add_mod]
    _ = (n % N + 1) + (n / N) * N := by ring
  constructor
  · rw [he, Nat.add_mul_mod_self_right, Nat.mod_eq_of_lt (by omega)]
  · rw [he, Nat.add_mul_div_right _ _ (by omega : 0 < N),
        Nat.div_eq_of_lt (by omega), Nat.zero_add]

theorem nat_idx_step (a L : ℕ) : (a % L + 1) % L = (a + 1) % L := by
  have he : a + 1 = (a % L + 1) + (a / L) * L := by
    calc a + 1 = L * (a / L) + a % L + 1 := by rw [Nat.div_add_mod]
    _ = (a % L + 1) + (a / L) * L := by ring
  rw [he, Nat.add_mul_mod_self_right]

/-- Iterating `update_animation` while the selected animation stays fixed:
after `n` calls the frame index is `(n / N) % L` and the tick counter is
`n % N`, and nothing else of the cursor or motion state changes. -/
theorem animTick_iterate (s : PState) (L : ℕ)
    (hsel : s.currentAnimationName = some (animTargetName s.vx s.vy s.isOnGround))
    (hL : s.currentFrames.length = L) (hLpos : 0 < L)
    (hN : 1 ≤ s.animationTicksPerFrame)
    (hi : s.currentFrameIndex = 0) (ht : s.ticksSinceLastFrameChange = 0) :
    ∀ n : ℕ,
      (updateAnimation^[n] s).vx = s.vx ∧
      (updateAnimation^[n] s).vy = s.vy ∧
      (updateAnimation^[n] s).isOnGround = s.isOnGround ∧
      (updateAnimation^[n] s).currentAnimationName = s.currentAnimationName ∧
      (updateAnimation^[n] s).currentFrames = s.currentFrames ∧
      (updateAnimation^[n] s).animationTicksPerFrame = s.animationTicksPerFrame ∧
      (updateAnimation^[n] s).currentFrameIndex =
        (n / s.animationTicksPerFrame) % L ∧
      (updateAnimation^[n] s).ticksSinceLastFrameChange =
        n % s.animationTicksPerFrame := by
  have hne : s.currentFrames ≠ [] := by
    intro hnil
    rw [hnil] at hL
    simp at hL
    omega
  intro n
  induction n with
  | zero =>
    refine ⟨rfl, rfl, rfl, rfl, rfl, rfl, ?_, ?_⟩
    · simp [hi]
    · simp [ht]
  | succ n ih =>
    obtain ⟨ivx, ivy, ig, inm, icf, iN, iidx, itk⟩ := ih
    rw [Function.iterate_succ_apply']
    set u := updateAnimation^[n] s with hu
    have hmot := updateAnimation_motion_fields u
    have hcfg := (updateAnimation_motion u).2
    simp only [configOf, Prod.mk.injEq] at hcfg
    have hcur := updateAnimation_cursorOf u
    simp only [uaCursor] at hcur
    have hcond : ¬ (u.currentAnimationName ≠
        some (animTargetName u.vx u.vy u.isOnGround) ∨ u.currentFrames = []) := by
      rw [ivx, ivy, ig, inm, icf]
      push_neg
      exact ⟨hsel, hne⟩
    rw [if_neg hcond] at hcur
    simp only [afCursor] at hcur
    rw [inm, icf, iidx, itk, iN, hL] at hcur
    have hcfne : ¬ (s.currentFrames = []) := hne
    rw [if_neg hcfne] at hcur
    by_cases hth : s.animationTicksPerFrame ≤ n % s.animationTicksPerFrame + 1
    · rw [if_pos hth] at hcur
      obtain ⟨roll1, roll2⟩ := nat_tick_roll hN hth
      simp only [cursorOf, Prod.mk.injEq] at hcur
      obtain ⟨e1, e2, e3, e4⟩ := hcur
      refine ⟨hmot.2.2.1.trans ivx, hmot.2.2.2.1.trans ivy,
              hmot.2.2.2.2.trans ig, e1, e2, hcfg.2.1.trans iN, ?_, ?_⟩
      · rw [e3, nat_idx_step, roll2]
      · rw [e4, roll1]
    · rw [if_neg hth] at hcur
      obtain ⟨stay1, stay2⟩ := nat_tick_stay hN hth
      simp only [cursorOf, Prod.mk.injEq] at hcur
      obtain ⟨e1, e2, e3, e4⟩ := hcur
      refine ⟨hmot.2.2.1.trans ivx, hmot.2.2.2.1.trans ivy,
              hmot.2.2.2.2.trans ig, e1, e2, hcfg.2.1.trans iN, ?_, ?_⟩
      · rw [e3, stay2]
      · rw [e4, stay1]

/-- C4: with `animation_ticks_per_frame = N ≥ 1` and a 4-frame current
animation held fixed by the selection rule, starting from a freshly-set
animation (`current_frame_index = 0`, `ticks_since_last_frame_change = 0`),
the frame index after `n` per-frame animation updates is `(n / N) % 4` — so
the indices cycle `0,1,2,3` in order, each held for exactly `N` calls — and
after `4 * N` calls the index returns to 0. -/
theorem animation_cycling (s : PState)
    (hsel : s.currentAnimationName = some (animTargetName s.vx s.vy s.isOnGround))
    (h4 : s.currentFrames.length = 4)
    (hN : 1 ≤ s.animationTicksPerFrame)
    (hi : s.currentFrameIndex = 0) (ht : s.ticksSinceLastFrameChange = 0) :
    (updateAnimation^[4 * s.animationTicksPerFrame] s).currentFrameIndex = 0 ∧
    ∀ n : ℕ, (updateAnimation^[n] s).currentFrameIndex =
      (n / s.animationTicksPerFrame) % 4 := by
  have key := animTick_iterate s 4 hsel h4 (by omega) hN hi ht
  constructor
  · rw [(key (4 * s.animationTicksPerFrame)).2.2.2.2.2.2.1,
        Nat.mul_div_cancel _ (by omega : 0 < s.animationTicksPerFrame)]
  · intro n
    exact (key n).2.2.2.2.2.2.1

/-- C4 (witness): a fresh 4-frame `walk_right` clip with
`animation_ticks_per_frame = 2` returns to frame index 0 after 8 calls. -/
theorem animation_cycling_witness :
    (updateAnimation^[8] walkFreshState).currentFrameIndex = 0 :=
  (animation_cycling walkFreshState (by with_unfolding_all decide) rfl
    (by decide) rfl rfl).1

/-- C5 (amended): the animation step reads only the resolved velocity, the
grounded flag, the animations table, the tick parameters and the playback
cursor — never `dt` or the position: two states agreeing on those fields
produce identical cursors after `update_animation`.  (The claim's full
two-run statement over `update` fails, because `dt` flows into the resolved
velocity through boundary and platform clamping and thereby into animation
selection — see the counterexample.) -/
theorem animation_tick_noninterference (s t : PState)
    (hvx : s.vx = t.vx) (hvy : s.vy = t.vy) (hg : s.isOnGround = t.isOnGround)
    (hcur : cursorOf s = cursorOf t) (ha : s.animations = t.animations)
    (hN : s.animationTicksPerFrame = t.animationTicksPerFrame) :
    cursorOf (updateAnimation s) = cursorOf (updateAnimation t) := by
  rw [updateAnimation_cursorOf, updateAnimation_cursorOf, hvx, hvy, hg, ha, hN]
  simp only [cursorOf, Prod.mk.injEq] at hcur
  rw [hcur.1, hcur.2.1, hcur.2.2.1, hcur.2.2.2]

/-- C5 (witness): the animation cursor evolves identically for two states
that differ only in position, rect and image. -/
theorem animation_tick_noninterference_witness :
    cursorOf (updateAnimation walkMidState) =
    cursorOf (updateAnimation
      { walkMidState with px := 999, py := 0, rect := none, image := none }) :=
  animation_tick_noninterference _ _ rfl rfl rfl rfl rfl rfl

set_option maxRecDepth 20000 in
/-- C5 (counterexample): same start state, same held key (right), one update
call each, but different `dt` values give different frame indices — with
`dt = 2` the right screen edge zeroes `velocity.x`, the selection switches to
`idle_front` and resets the cursor, while with `dt = 1/1000` `walk_right`
advances — so `dt` does flow into the animation frame sequence. -/
theorem animation_dt_counterexample :
    (update keysRight 2 [] walkMidState).currentFrameIndex ≠
    (update keysRight (mkRat 1 1000) [] walkMidState).currentFrameIndex := by
  with_unfolding_all decide

/-! ### Rounding facts for the boundary clamp -/

theorem pyRound_intCast (z : ℤ) : pyRound ((z : ℤ) : ℚ) = z := by
  simp only [pyRound]
  rw [ratFloor_eq_floor, Int.floor_intCast]
  norm_num

theorem pyRound_le_add_half (q : ℚ) : (pyRound q : ℚ) ≤ q + 1/2 := by
  simp only [pyRound]
  rw [ratFloor_eq_floor]
  split_ifs with h1 h2 h3
  · have := Int.floor_le q
    linarith
  · push_cast
    linarith
  · have := Int.floor_le q
    linarith
  · push_cast
    have := not_lt.mp h1
    linarith

/-- After the collision passes the rect's y is exactly
`round(position.y)`. -/
theorem handlePlatformCollisions_recty (ps : List Rect) {s : PState} {r : Rect}
    (h : s.rect = some r) :
    ∃ rv, (handlePlatformCollisions ps s).rect = some rv ∧
          rv.y = pyRound (handlePlatformCollisions ps s).py := by
  rw [handlePlatformCollisions, collisionGuard_of_some h]
  obtain ⟨rh, hrh⟩ : ∃ rh, (horizontalPass ps s).rect = some rh := by
    rw [horizontalPass_of_some h]
    exact ⟨_, rfl⟩
  rw [verticalPass_of_some hrh]
  rcases hl : (ps.filter fun p =>
      collideB { rh with y := pyRound (horizontalPass ps s).py } p) with _ | ⟨p, tl⟩
  · exact ⟨_, rfl, rfl⟩
  · rcases lt_trichotomy (horizontalPass ps s).vy 0 with hv | hv | hv
    · rw [vfold_cons_neg p tl _ hv]
      exact ⟨_, rfl, (pyRound_intCast _).symm⟩
    · rw [vfold_cons_zero p tl _ hv]
      exact ⟨_, rfl, (pyRound_intCast _).symm⟩
    · rw [vfold_cons_pos p tl _ hv]
      exact ⟨_, rfl, (pyRound_intCast _).symm⟩

/-- C6 (amended): if after integration and the platform collision passes the
bounding rect's bottom exceeds the playable-area height (and `position.y` is
not negative, so the top-edge branch does not pre-empt the floor branch), one
update clamps `position.y` exactly to `playable_height - rect.height`, sets
`is_on_ground = true`, and zeroes `velocity.y` only when it is downward
(`velocity.y > 0`); an upward velocity is preserved (see the
counterexample). -/
theorem floor_clamp (k : Keys) (dt : ℚ) (ps : List Rect) (s : PState) (rv : Rect)
    (hrv : (postCollisionState k dt ps s).rect = some rv)
    (hbot : GAME_AREA_HEIGHT < rv.y + rv.h)
    (hpy : ¬ (postCollisionState k dt ps s).py < 0) :
    (update k dt ps s).py = ((GAME_AREA_HEIGHT - rv.h : ℤ) : ℚ) ∧
    (update k dt ps s).isOnGround = true ∧
    (update k dt ps s).vy =
      (if 0 < (postCollisionState k dt ps s).vy then 0
       else (postCollisionState k dt ps s).vy) := by
  obtain ⟨r0, hr0⟩ := ensureRect_isSome (handleInputAndMovement k dt s)
  obtain ⟨rv2, hrv2, hy2⟩ := handlePlatformCollisions_recty ps hr0
  have heq : rv = rv2 := by
    have hj : some rv = some rv2 := hrv.symm.trans hrv2
    exact Option.some.inj hj
  have h2 : rv.y = pyRound (postCollisionState k dt ps s).py := by
    rw [heq]
    exact hy2
  have hcode : (postCollisionState k dt ps s).py + (rv.h : ℚ) >
      (GAME_AREA_HEIGHT : ℚ) := by
    have h1 : (pyRound (postCollisionState k dt ps s).py : ℚ) ≤
        (postCollisionState k dt ps s).py + 1/2 := pyRound_le_add_half _
    have h4 : ((rv.y : ℤ) : ℚ) ≤ (postCollisionState k dt ps s).py + 1/2 := by
      rw [h2]
      exact h1
    have h3 : (GAME_AREA_HEIGHT : ℤ) + 1 ≤ rv.y + rv.h := hbot
    have h5 : (GAME_AREA_HEIGHT : ℚ) + 1 ≤ (rv.y : ℚ) + (rv.h : ℚ) := by
      exact_mod_cast h3
    linarith
  have hfloor := applyScreenBoundaries_floor hrv hpy hcode
  have hupd : update k dt ps s =
      updateAnimation (rectSync (applyScreenBoundaries (postCollisionState k dt ps s))) := by
    rw [update, updateMovement, postCollisionState]
  rw [hupd]
  refine ⟨?_, ?_, ?_⟩
  · rw [(updateAnimation_motion_fields _).2.1, rectSync_py, hfloor.1]
  · rw [(updateAnimation_motion_fields _).2.2.2.2, rectSync_ground, hfloor.2.1]
  · rw [(updateAnimation_motion_fields _).2.2.2.1, rectSync_vy, hfloor.2.2]

set_option maxRecDepth 20000 in
/-- C6 (witness): a player below the floor falling under gravity is clamped
to `playable_height - rect_height = 360`, grounded, and its downward velocity
is zeroed. -/
theorem floor_clamp_witness :
    (update keysNone (mkRat 1 100) [] belowFloorState).py =
      ((GAME_AREA_HEIGHT - 72 : ℤ) : ℚ) ∧
    (update keysNone (mkRat 1 100) [] belowFloorState).isOnGround = true ∧
    (update keysNone (mkRat 1 100) [] belowFloorState).vy =
      (if 0 < (postCollisionState keysNone (mkRat 1 100) [] belowFloorState).vy
       then 0 else (postCollisionState keysNone (mkRat 1 100) [] belowFloorState).vy) :=
  floor_clamp keysNone (mkRat 1 100) [] belowFloorState ⟨100, 503, 72, 72⟩
    (by with_unfolding_all decide) (by with_unfolding_all decide)
    (by with_unfolding_all decide)

set_option maxRecDepth 20000 in
/-- C6 (counterexample): with the up key held, a player whose rect bottom
exceeds the playable height is clamped and grounded, but its (upward)
`velocity.y` is not zeroed — the code zeroes it only when moving down. -/
theorem floor_clamp_counterexample :
    (postCollisionState keysUp (mkRat 1 100) [] belowFloorState).rect =
      some ⟨100, 495, 72, 72⟩ ∧
    GAME_AREA_HEIGHT < 495 + 72 ∧
    ¬ (postCollisionState keysUp (mkRat 1 100) [] belowFloorState).py < 0 ∧
    (update keysUp (mkRat 1 100) [] belowFloorState).py =
      ((GAME_AREA_HEIGHT - 72 : ℤ) : ℚ) ∧
    (update keysUp (mkRat 1 100) [] belowFloorState).isOnGround = true ∧
    (update keysUp (mkRat 1 100) [] belowFloorState).vy ≠ 0 := by
  with_unfolding_all decide

/-! ### Cursor invariant preservation -/

theorem saCursor_inv {nm : String} {anims : List (String × List Frame)}
    {cn : Option String} {cf : List Frame} {i t : ℕ}
    (h : i < cf.length ∨ (cf = [] ∧ i = 0)) :
    (saCursor nm anims cn cf i t).2.2.1 < (saCursor nm anims cn cf i t).2.1.length ∨
    ((saCursor nm anims cn cf i t).2.1 = [] ∧
     (saCursor nm anims cn cf i t).2.2.1 = 0) := by
  unfold saCursor
  split
  · exact h
  · split
    · exact h
    · split
      · left
        simp
      · split
        · exact h
        · split
          · rename_i kv heq
            left
            have hp := List.find?_some heq
            have hkv : kv.2 ≠ [] := by
              intro hcon
              rw [hcon] at hp
              simp at hp
            simpa using List.length_pos.mpr hkv
          · right
            exact ⟨rfl, rfl⟩

theorem afCursor_inv {N : ℕ} {cn : Option String} {cf : List Frame} {i t : ℕ}
    (h : i < cf.length ∨ (cf = [] ∧ i = 0)) :
    (afCursor N cn cf i t).2.2.1 < (afCursor N cn cf i t).2.1.length ∨
    ((afCursor N cn cf i t).2.1 = [] ∧ (afCursor N cn cf i t).2.2.1 = 0) := by
  unfold afCursor
  split
  · exact h
  · rename_i hne
    split
    · left
      exact Nat.mod_lt _ (List.length_pos.mpr hne)
    · left
      rcases h with h | ⟨hnil, _⟩
      · exact h
      · exact absurd hnil hne

theorem cursorInv_setAnimation {s : PState} (nm : String) (h : cursorInv s) :
    cursorInv (setAnimation nm s) := by
  have hc := setAnimation_cursorOf nm s
  have e2 : (setAnimation nm s).currentFrames =
      (saCursor nm s.animations s.currentAnimationName s.currentFrames
        s.currentFrameIndex s.ticksSinceLastFrameChange).2.1 :=
    congrArg (fun c => c.2.1) hc
  have e3 : (setAnimation nm s).currentFrameIndex =
      (saCursor nm s.animations s.currentAnimationName s.currentFrames
        s.currentFrameIndex s.ticksSinceLastFrameChange).2.2.1 :=
    congrArg (fun c => c.2.2.1) hc
  unfold cursorInv at h ⊢
  rw [e2, e3]
  exact saCursor_inv h

theorem cursorInv_updateAnimation {s : PState} (h : cursorInv s) :
    cursorInv (updateAnimation s) := by
  have hc := updateAnimation_cursorOf s
  have e2 : (updateAnimation s).currentFrames =
      (uaCursor s.vx s.vy s.isOnGround s.animations s.animationTicksPerFrame
        s.currentAnimationName s.currentFrames s.currentFrameIndex
        s.ticksSinceLastFrameChange).2.1 :=
    congrArg (fun c => c.2.1) hc
  have e3 : (updateAnimation s).currentFrameIndex =
      (uaCursor s.vx s.vy s.isOnGround s.animations s.animationTicksPerFrame
        s.currentAnimationName s.currentFrames s.currentFrameIndex
        s.ticksSinceLastFrameChange).2.2.1 :=
    congrArg (fun c => c.2.2.1) hc
  unfold cursorInv at h ⊢
  rw [e2, e3]
  simp only [uaCursor]
  by_cases hcond : s.currentAnimationName ≠
      some (animTargetName s.vx s.vy s.isOnGround) ∨ s.currentFrames = []
  · rw [if_pos hcond]
    exact afCursor_inv (saCursor_inv h)
  · rw [if_neg hcond]
    exact afCursor_inv h

theorem cursorInv_update {s : PState} (k : Keys) (dt : ℚ) (ps : List Rect)
    (h : cursorInv s) : cursorInv (update k dt ps s) := by
  have hm := (updateMovement_cursorConfig k dt ps s).1
  have hinv2 : cursorInv (updateMovement k dt ps s) := by
    have e2 : (updateMovement k dt ps s).currentFrames = s.currentFrames :=
      congrArg (fun c => c.2.1) hm
    have e3 : (updateMovement k dt ps s).currentFrameIndex = s.currentFrameIndex :=
      congrArg (fun c => c.2.2.1) hm
    unfold cursorInv at h ⊢
    rw [e2, e3]
    exact h
  rw [update]
  exact cursorInv_updateAnimation hinv2

theorem cursorInv_mkPlayer (anims : List (String × List Frame)) (initial : String)
    (pos : ℚ × ℚ) (N : ℕ) : cursorInv (mkPlayer anims initial pos N) := by
  simp only [mkPlayer]
  split
  · apply cursorInv_setAnimation
    right
    exact ⟨rfl, rfl⟩
  · right
    exact ⟨rfl, rfl⟩

/-- C7 (amended): after construction and any sequence of `set_animation` and
per-frame `update` operations — including requests for missing or empty
animations — the playback cursor satisfies
`current_frame_index < len(current_frames)` whenever `current_frames` is
non-empty, and `current_frame_index = 0` when `current_frames` is empty
(the missing-art fallback).  The claim's unconditional strict inequality
fails exactly in the empty-frames fallback states (see the
counterexample). -/
theorem cursor_invariant (anims : List (String × List Frame)) (initial : String)
    (pos : ℚ × ℚ) (N : ℕ) (ops : List PlayerOp) :
    cursorInv (ops.foldl applyOp (mkPlayer anims initial pos N)) := by
  have aux : ∀ (l : List PlayerOp) (s : PState), cursorInv s →
      cursorInv (l.foldl applyOp s) := by
    intro l
    induction l with
    | nil => intro s hs; exact hs
    | cons op tl ih =>
      intro s hs
      rw [List.foldl_cons]
      refine ih _ ?_
      cases op with
      | setAnim nm => exact cursorInv_setAnimation nm hs
      | tick k dt ps => exact cursorInv_update k dt ps hs
  exact aux ops _ (cursorInv_mkPlayer anims initial pos N)

/-- C7 (counterexample): a player constructed with an empty animations table
ends with `current_frames = []` and `current_frame_index = 0`, so the
unconditional invariant `current_frame_index < len(current_frames)` is
false right after construction. -/
theorem cursor_invariant_counterexample :
    ¬ ((mkPlayer [] "idle_front" (100, 100) 7).currentFrameIndex <
       (mkPlayer [] "idle_front" (100, 100) 7).currentFrames.length) := by
  with_unfolding_all decide

/-- C8 (amended): with a truthy `scale`, `Spritesheet.get_image` returns an
image of exactly `int(w*scale) × int(h*scale)` — Python `int(...)` truncation,
which for non-negative sizes and positive scale is the floor
`⌊w*scale⌋ × ⌊h*scale⌋`, not Python's banker's `round` (the claim's
`round(w*scale)` differs at e.g. `w = 1, scale = 3/2`, see the
counterexample). -/
theorem get_image_scaled_size (w h : ℤ) (sc : ℚ) (hw : 0 ≤ w) (hh : 0 ≤ h)
    (hsc : 0 < sc) :
    getImageSize w h (some sc) = (⌊(w : ℚ) * sc⌋, ⌊(h : ℚ) * sc⌋) := by
  have key : ∀ q : ℚ, 0 ≤ q → pyInt q = ⌊q⌋ := by
    intro q hq
    unfold pyInt
    rw [if_pos hq, ratFloor_eq_floor]
  simp only [getImageSize]
  rw [if_pos hsc.ne']
  rw [key _ (mul_nonneg (by exact_mod_cast hw) hsc.le),
      key _ (mul_nonneg (by exact_mod_cast hh) hsc.le)]

/-- C8 (witness): a 3×2 region at scale 3/2 comes out as 4×3
(`⌊4.5⌋ = 4`, `⌊3⌋ = 3`). -/
theorem get_image_scaled_size_witness :
    getImageSize 3 2 (some (mkRat 3 2)) =
      (⌊((3 : ℤ) : ℚ) * mkRat 3 2⌋, ⌊((2 : ℤ) : ℚ) * mkRat 3 2⌋) :=
  get_image_scaled_size 3 2 (mkRat 3 2) (by decide) (by decide)
    (by with_unfolding_all decide)

/-- C8 (counterexample): at `w = h = 1`, `scale = 3/2` the code returns a
1×1 image (`int(1.5) = 1`) while the claim's `round(1.5) = 2` demands 2×2. -/
theorem get_image_size_counterexample :
    getImageSize 1 1 (some (mkRat 3 2)) ≠
      (pyRound (((1 : ℤ) : ℚ) * mkRat 3 2), pyRound (((1 : ℤ) : ℚ) * mkRat 3 2)) := by
  with_unfolding_all decide

end Sorcery